import Mathlib

/-!
Shallow embedding of the `kitties` pallet (src/pallets/kitties/src/lib.rs).

The pallet's storage is a double map `Kitties : AccountId × KittyId → Option Kitty`
together with a scalar counter `NextKittyId : KittyId` (a `u32`).  Account ids and
kitty ids are modelled as `Nat`; the `u32` bound of the counter enters only through
the explicit comparisons against `u32::MAX` that the source performs.  Dispatchable
calls are modelled as functions from the pallet state to a pair of the resulting
state and an `Except` value, because `decl_module`-era dispatch does not roll back
storage writes made before an error is returned: the state component of the result
is the storage as it is left behind, also on the error paths.
-/

namespace Kitties

/-- `u32::MAX`, the bound the source compares `NextKittyId` against. -/
def U32MAX : Nat := 4294967295

/-- `enum KittyGender { M, F }` from the source. -/
inductive KittyGender
| M
| F
deriving DecidableEq

/-- `pub struct Kitty(pub [u8; 16])`: a kitty wraps its 16-byte dna.  Bytes are
modelled as `Nat`; byte-ness (`< 256`) and the length 16 appear as hypotheses
where a claim needs them. -/
structure Kitty where
  dna : List Nat
deriving DecidableEq

/-- `Kitty::gender`: even first dna byte is female, odd is male. -/
def Kitty.gender (k : Kitty) : KittyGender :=
  if k.dna.headD 0 % 2 = 0 then KittyGender.F else KittyGender.M

/-- `fn combine_dna(parent_1: u8, parent_2: u8, selector: u8) -> u8`:
`(!selector & parent_1) | (selector & parent_2)`.  The `u8` complement
`!selector` is `255 XOR selector`. -/
def combine_dna (parent_1 parent_2 selector : Nat) : Nat :=
  ((255 ^^^ selector) &&& parent_1) ||| (selector &&& parent_2)

/-- The per-byte loop of `breed_new` lifted to whole genomes: byte `i` of the
result is `combine_dna` of byte `i` of each parent. -/
def combine (a b : List Nat) (selector : Nat) : List Nat :=
  List.zipWith (fun x y => combine_dna x y selector) a b

/-- The `Kitties` double map, as a total function to `Option Kitty`. -/
def KittyMap := Nat → Nat → Option Kitty

/-- The empty storage map. -/
def emptyMap : KittyMap := fun _ _ => none

/-- `Kitties::<T>::insert(owner, id, kitty)`. -/
def insertKitty (m : KittyMap) (owner id : Nat) (k : Kitty) : KittyMap :=
  fun a i => if a = owner ∧ i = id then some k else m a i

/-- The pallet storage: the `Kitties` double map and `NextKittyId`. -/
structure KState where
  kitties : KittyMap
  nextKittyId : Nat

/-- Genesis storage: empty map, `NextKittyId = 0`. -/
def initState : KState := { kitties := emptyMap, nextKittyId := 0 }

/-- `decl_error!` of the pallet. -/
inductive KError
| KittiesIdOverflow
| SameGenderParents
| MaxKittiesReachedNow
| KittyNotExixting
deriving DecidableEq

/-- Dispatchable `create` (spawn).  The dna is the 16 random bytes obtained from
the randomness collaborator, passed in as an oracle input.  On success the
`KittyCreated(sender, kitty_id, kitty)` event payload is returned.  Source
order: overflow guard, build kitty, read `NextKittyId`, insert, store
`kitty_id + 1`. -/
def create (s : KState) (sender : Nat) (dna : List Nat) :
    KState × Except KError (Nat × Kitty) :=
  if s.nextKittyId = U32MAX then
    (s, Except.error KError.KittiesIdOverflow)
  else
    let kitty : Kitty := ⟨dna⟩
    let kitty_id := s.nextKittyId
    ({ kitties := insertKitty s.kitties sender kitty_id kitty,
       nextKittyId := kitty_id + 1 },
     Except.ok (kitty_id, kitty))

/-- `fn breed_new`: gender guard, combine the dnas with selector 10, read
`NextKittyId`, insert the child at that id, then the `checked_add(1)` guard
(which fails exactly at `u32::MAX`), and return `(new_kitty, next_kitty_id - 1)`.
Note the source neither writes `NextKittyId` back nor checks before inserting. -/
def breed_new (s : KState) (owner : Nat) (kitty_1 kitty_2 : Kitty) :
    KState × Except KError (Kitty × Nat) :=
  if kitty_1.gender = kitty_2.gender then
    (s, Except.error KError.SameGenderParents)
  else
    let selector := 10
    let new_dna := combine kitty_1.dna kitty_2.dna selector
    let new_kitty : Kitty := ⟨new_dna⟩
    let next_kitty_id := s.nextKittyId
    let s1 : KState :=
      { s with kitties := insertKitty s.kitties owner next_kitty_id new_kitty }
    if next_kitty_id = U32MAX then
      (s1, Except.error KError.MaxKittiesReachedNow)
    else
      (s1, Except.ok (new_kitty, next_kitty_id - 1))

/-- Dispatchable `breed`: look both parents up under the caller, delegate to
`breed_new`, and on success return the `KittyCreated(user, new_kitty_id,
kitty_created)` event payload. -/
def breed (s : KState) (user : Nat) (kitti_id_1 kitty_id_2 : Nat) :
    KState × Except KError (Nat × Kitty) :=
  match s.kitties user kitti_id_1 with
  | none => (s, Except.error KError.KittyNotExixting)
  | some kitty_1 =>
    match s.kitties user kitty_id_2 with
    | none => (s, Except.error KError.KittyNotExixting)
    | some kitty_2 =>
      match breed_new s user kitty_1 kitty_2 with
      | (s1, Except.error e) => (s1, Except.error e)
      | (s1, Except.ok (kitty_created, new_kitty_id)) =>
        (s1, Except.ok (new_kitty_id, kitty_created))

/-- One extrinsic invocation, with its environment-supplied inputs. -/
inductive Op
| opCreate (sender : Nat) (dna : List Nat)
| opBreed (user : Nat) (id1 id2 : Nat)

/-- The state left behind by one invocation (the result value is dropped). -/
def step (s : KState) : Op → KState
| Op.opCreate sender dna => (create s sender dna).1
| Op.opBreed user id1 id2 => (breed s user id1 id2).1

/-- Run a sequence of invocations from a state. -/
def run (s : KState) (ops : List Op) : KState :=
  ops.foldl step s

/-- States reachable from genesis by some sequence of extrinsics. -/
def Reachable (s : KState) : Prop :=
  ∃ ops, s = run initState ops

/-- A concrete all-zero dna: first byte even, so the kitty is female. -/
def dnaF : List Nat := List.replicate 16 0

/-- A concrete all-255 dna: first byte odd, so the kitty is male. -/
def dnaM : List Nat := List.replicate 16 255

def kittyF : Kitty := ⟨dnaF⟩

def kittyM : Kitty := ⟨dnaM⟩

/-- The child `breed_new` derives from `kittyF` and `kittyM`. -/
def childKitty : Kitty := ⟨combine dnaF dnaM 10⟩

/-- State after `create 0 dnaF; create 0 dnaM` from genesis: kitties 0 and 1
under owner 0, `NextKittyId = 2`. -/
def s2 : KState := run initState [Op.opCreate 0 dnaF, Op.opCreate 0 dnaM]

/-- An artificial state, in the spirit of the spec's "nextId artificially set"
test: a female kitty at id 0 and a male kitty at id 1 under owner 0, with the
counter already at `u32::MAX`. -/
def sMax : KState :=
  { kitties := insertKitty (insertKitty emptyMap 0 0 kittyF) 0 1 kittyM,
    nextKittyId := U32MAX }

/-- C1: refuted on `breed`.  From genesis, after `create 0 dnaF; create 0 dnaM`
the counter is 2; the then successful `breed 0 0 1` reports id 1 (the counter
minus one, and an id already naming `kittyM`), stores the child under id 2, and
leaves the counter at 2 — the claim says the reported id is 2, the child is
stored under the reported id, and the counter becomes 3. -/
theorem c1_breed_misallocates_id :
    s2.nextKittyId = 2 ∧
    (breed s2 0 0 1).2 = Except.ok (1, childKitty) ∧
    (breed s2 0 0 1).1.kitties 0 2 = some childKitty ∧
    (breed s2 0 0 1).1.kitties 0 1 = some kittyM ∧
    (breed s2 0 0 1).1.nextKittyId = 2 :=
  ⟨rfl, rfl, rfl, rfl, rfl⟩

/-- C2: refuted on `breed`'s overflow path.  With the counter at `u32::MAX` and
two opposite-gender parents stored, `breed` returns `MaxKittiesReachedNow` but
has already inserted the child at `(0, u32::MAX)`: a partial write survives the
error. -/
theorem c2_partial_write_on_error :
    sMax.kitties 0 U32MAX = none ∧
    (breed sMax 0 0 1).2 = Except.error KError.MaxKittiesReachedNow ∧
    (breed sMax 0 0 1).1.kitties 0 U32MAX = some childKitty :=
  ⟨rfl, rfl, rfl⟩

/-- C3: refuted.  After the breed of `c1_breed_misallocates_id` a kitty sits
under id 2 while the counter is still 2 (not ≥ 1 + 2), and the next `create`
hands out id 2 a second time. -/
theorem c3_id_reused :
    (breed s2 0 0 1).1.kitties 0 2 = some childKitty ∧
    (breed s2 0 0 1).1.nextKittyId = 2 ∧
    (create (breed s2 0 0 1).1 0 dnaM).2 = Except.ok (2, kittyM) :=
  ⟨rfl, rfl, rfl⟩

/-- C4: refuted.  The `create` following the breed stores its fresh kitty under
`(0, 2)`, overwriting the distinct child the breed had stored there. -/
theorem c4_entry_overwritten :
    (breed s2 0 0 1).1.kitties 0 2 = some childKitty ∧
    (create (breed s2 0 0 1).1 0 dnaM).1.kitties 0 2 = some kittyM ∧
    childKitty ≠ kittyM :=
  ⟨rfl, rfl, by decide⟩

/-- The spawn half of C1 does hold: a successful `create` returns the prior
counter value as the id, stores the kitty there, and bumps the counter to
id + 1. -/
theorem create_allocates_id (s : KState) (sender : Nat) (dna : List Nat)
    (h : s.nextKittyId ≠ U32MAX) :
    (create s sender dna).2 = Except.ok (s.nextKittyId, ⟨dna⟩) ∧
    (create s sender dna).1.kitties sender s.nextKittyId = some ⟨dna⟩ ∧
    (create s sender dna).1.nextKittyId = s.nextKittyId + 1 := by
  simp [create, h, insertKitty]

theorem create_allocates_id_witness :
    (create initState 0 dnaF).2 = Except.ok (0, kittyF) ∧
    (create initState 0 dnaF).1.kitties 0 0 = some kittyF ∧
    (create initState 0 dnaF).1.nextKittyId = 0 + 1 :=
  create_allocates_id initState 0 dnaF (by decide)

set_option maxRecDepth 4096 in
/-- Masking a byte-sized value with `255` keeps it. -/
theorem land_255_eq_self : ∀ z, z < 256 → 255 &&& z = z := by decide

/-- Per byte, selector 0 keeps the first parent's byte. -/
theorem combine_dna_selector_zero (x y : Nat) (hx : x < 256) :
    combine_dna x y 0 = x := by
  simp [combine_dna, land_255_eq_self x hx]

/-- Per byte, selector 255 keeps the second parent's byte. -/
theorem combine_dna_selector_max (x y : Nat) (hy : y < 256) :
    combine_dna x y 255 = y := by
  simp [combine_dna, Nat.xor_self, land_255_eq_self y hy]

/-- Genome-level: selector 0 returns the first genome. -/
theorem combine_selector_zero (a b : List Nat) (hlen : a.length = b.length)
    (ha : ∀ x ∈ a, x < 256) : combine a b 0 = a := by
  induction a generalizing b with
  | nil => simp [combine]
  | cons x xs ih =>
    cases b with
    | nil => simp at hlen
    | cons y ys =>
      simp only [combine, List.zipWith_cons_cons]
      refine congrArg₂ List.cons ?_ ?_
      · exact combine_dna_selector_zero x y (ha x (List.mem_cons_self x xs))
      · exact ih ys (by simpa using hlen) (fun z hz => ha z (List.mem_cons_of_mem x hz))

/-- Genome-level: selector 255 returns the second genome. -/
theorem combine_selector_max (a b : List Nat) (hlen : a.length = b.length)
    (hb : ∀ x ∈ b, x < 256) : combine a b 255 = b := by
  induction a generalizing b with
  | nil =>
    cases b with
    | nil => simp [combine]
    | cons y ys => simp at hlen
  | cons x xs ih =>
    cases b with
    | nil => simp at hlen
    | cons y ys =>
      simp only [combine, List.zipWith_cons_cons]
      refine congrArg₂ List.cons ?_ ?_
      · exact combine_dna_selector_max x y (hb y (List.mem_cons_self y ys))
      · exact ih ys (by simpa using hlen) (fun z hz => hb z (List.mem_cons_of_mem y hz))

/-- C8: `combine` is a pure function of its arguments (in this embedding two
calls with the same inputs are definitionally the same value), and on 16-byte
genomes selector 0 returns the first genome and selector 255 the second. -/
theorem c8_combine_pure_identity_selectors (a b : List Nat)
    (ha16 : a.length = 16) (hb16 : b.length = 16)
    (ha : ∀ x ∈ a, x < 256) (hb : ∀ x ∈ b, x < 256) :
    (∀ selector : Nat, combine a b selector = combine a b selector) ∧
    combine a b 0 = a ∧ combine a b 255 = b :=
  ⟨fun _ => rfl,
   combine_selector_zero a b (by rw [ha16, hb16]) ha,
   combine_selector_max a b (by rw [ha16, hb16]) hb⟩

theorem c8_combine_pure_identity_selectors_witness :
    combine dnaF dnaM 0 = dnaF ∧ combine dnaF dnaM 255 = dnaM :=
  ⟨(c8_combine_pure_identity_selectors dnaF dnaM (by decide) (by decide)
      (by decide) (by decide)).2.1,
   (c8_combine_pure_identity_selectors dnaF dnaM (by decide) (by decide)
      (by decide) (by decide)).2.2⟩

/-- Byte `i` of a combined genome is `combine_dna` of the parents' bytes `i`. -/
theorem combine_getD (a : List Nat) :
    ∀ (b : List Nat) (sel i : Nat), i < a.length → i < b.length →
      (combine a b sel).getD i 0 = combine_dna (a.getD i 0) (b.getD i 0) sel := by
  induction a with
  | nil => intro b sel i h1 h2; simp at h1
  | cons x xs ih =>
    intro b sel i h1 h2
    cases b with
    | nil => simp at h2
    | cons y ys =>
      cases i with
      | zero => simp [combine]
      | succ n =>
        simp only [combine, List.zipWith_cons_cons, List.getD_cons_succ]
        exact ih ys sel n (by simpa using h1) (by simpa using h2)

/-- C5: on every successful breed, byte `i` (`i < 16`) of the offspring's dna is
`(!selector & parent1[i]) | (selector & parent2[i])` with the fixed selector 10
(`!` being the 8-bit complement `255 ^^^ ·`). -/
theorem c5_offspring_byte_formula (s : KState) (u i1 i2 : Nat) (k1 k2 : Kitty)
    (h1 : s.kitties u i1 = some k1) (h2 : s.kitties u i2 = some k2)
    (hl1 : k1.dna.length = 16) (hl2 : k2.dna.length = 16)
    (nid : Nat) (k : Kitty)
    (hok : (breed s u i1 i2).2 = Except.ok (nid, k)) :
    ∀ i, i < 16 →
      k.dna.getD i 0 =
        ((255 ^^^ 10) &&& k1.dna.getD i 0) ||| (10 &&& k2.dna.getD i 0) := by
  intro i hi
  have hk : k = ⟨combine k1.dna k2.dna 10⟩ := by
    by_cases hg : k1.gender = k2.gender
    · simp [breed, breed_new, h1, h2, hg] at hok
    · by_cases hm : s.nextKittyId = U32MAX
      · simp [breed, breed_new, h1, h2, hg, hm] at hok
      · simp [breed, breed_new, h1, h2, hg, hm] at hok
        exact hok.2.symm
  rw [hk]
  have hbyte := combine_getD k1.dna k2.dna 10 i (by rw [hl1]; exact hi)
    (by rw [hl2]; exact hi)
  simpa [combine_dna] using hbyte

theorem c5_offspring_byte_formula_witness :
    0 < 16 ∧
    childKitty.dna.getD 0 0 =
      ((255 ^^^ 10) &&& kittyF.dna.getD 0 0) ||| (10 &&& kittyM.dna.getD 0 0) :=
  ⟨by decide,
   c5_offspring_byte_formula s2 0 0 1 kittyF kittyM rfl rfl (by decide) (by decide)
     1 childKitty rfl 0 (by decide)⟩

/-- C6: when both parents are found under the caller, breed returns
`SameGenderParents` exactly when the two parents' derived genders are equal,
and in that case the whole state is returned untouched (so opposite-gender
parents, in either order, pass the check). -/
theorem c6_same_gender_guard (s : KState) (u i1 i2 : Nat) (k1 k2 : Kitty)
    (h1 : s.kitties u i1 = some k1) (h2 : s.kitties u i2 = some k2) :
    ((breed s u i1 i2).2 = Except.error KError.SameGenderParents ↔
      k1.gender = k2.gender) ∧
    (k1.gender = k2.gender →
      breed s u i1 i2 = (s, Except.error KError.SameGenderParents)) := by
  by_cases hg : k1.gender = k2.gender
  · simp [breed, breed_new, h1, h2, hg]
  · by_cases hm : s.nextKittyId = U32MAX
    · simp [breed, breed_new, h1, h2, hg, hm]
    · simp [breed, breed_new, h1, h2, hg, hm]

/-- A second female kitty, dna all-2 (first byte even). -/
def kittyF2 : Kitty := ⟨List.replicate 16 2⟩

/-- Two female kitties under owner 0. -/
def sFF : KState :=
  { kitties := insertKitty (insertKitty emptyMap 0 0 kittyF) 0 1 kittyF2,
    nextKittyId := 2 }

theorem c6_same_gender_guard_witness :
    (breed sFF 0 0 1).2 = Except.error KError.SameGenderParents ∧
    breed sFF 0 0 1 = (sFF, Except.error KError.SameGenderParents) :=
  ⟨(c6_same_gender_guard sFF 0 0 1 kittyF kittyF2 rfl rfl).1.mpr rfl,
   (c6_same_gender_guard sFF 0 0 1 kittyF kittyF2 rfl rfl).2 rfl⟩

/-- C7: if either parent id has no entry under the calling owner's key, breed
returns `KittyNotExixting` and the state exactly as it was. -/
theorem c7_missing_parent (s : KState) (u i1 i2 : Nat)
    (h : s.kitties u i1 = none ∨ s.kitties u i2 = none) :
    breed s u i1 i2 = (s, Except.error KError.KittyNotExixting) := by
  cases h with
  | inl h1 => simp [breed, h1]
  | inr h2 =>
    cases hc : s.kitties u i1 with
    | none => simp [breed, hc]
    | some k1 => simp [breed, hc, h2]

/-- A kitty stored with id 0 under owner 1 only. -/
def sX : KState :=
  { kitties := insertKitty emptyMap 1 0 kittyF, nextKittyId := 1 }

theorem c7_missing_parent_witness :
    sX.kitties 1 0 = some kittyF ∧ sX.kitties 0 0 = none ∧
    breed sX 0 0 0 = (sX, Except.error KError.KittyNotExixting) :=
  ⟨rfl, rfl, c7_missing_parent sX 0 0 0 (Or.inl rfl)⟩

/-- Helper: with the counter at `u32::MAX`, a breed of two stored
opposite-gender parents returns `MaxKittiesReachedNow`. -/
theorem breed_at_max (s : KState) (u i1 i2 : Nat) (k1 k2 : Kitty)
    (h1 : s.kitties u i1 = some k1) (h2 : s.kitties u i2 = some k2)
    (hg : k1.gender ≠ k2.gender) (hm : s.nextKittyId = U32MAX) :
    (breed s u i1 i2).2 = Except.error KError.MaxKittiesReachedNow := by
  simp [breed, breed_new, h1, h2, hg, hm]

/-- C9 (amended): `MaxKittiesReachedNow` is reachable, not unreachable — with
the counter at `u32::MAX`, a breed of two stored opposite-gender parents under
one owner returns it, because `breed_new` has no prior overflow guard of its
own. -/
theorem c9_max_capacity_error (s : KState) (u i1 i2 : Nat) (k1 k2 : Kitty)
    (h1 : s.kitties u i1 = some k1) (h2 : s.kitties u i2 = some k2)
    (hg : k1.gender ≠ k2.gender) (hm : s.nextKittyId = U32MAX) :
    (breed s u i1 i2).2 = Except.error KError.MaxKittiesReachedNow :=
  breed_at_max s u i1 i2 k1 k2 h1 h2 hg hm

theorem c9_max_capacity_error_witness :
    (breed sMax 0 0 1).2 = Except.error KError.MaxKittiesReachedNow :=
  c9_max_capacity_error sMax 0 0 1 kittyF kittyM rfl rfl (by decide) rfl

/-- `n` consecutive `create` extrinsics by owner 0 with dna `dnaM`. -/
def creates (n : Nat) : List Op := List.replicate n (Op.opCreate 0 dnaM)

/-- Running `n` creates from a state whose counter stays below the `u32::MAX`
guard advances the counter by `n` and leaves every entry whose id is below the
starting counter untouched. -/
theorem run_creates (n : Nat) : ∀ s : KState, s.nextKittyId + n ≤ U32MAX →
    (run s (creates n)).nextKittyId = s.nextKittyId + n ∧
    ∀ a i, i < s.nextKittyId → (run s (creates n)).kitties a i = s.kitties a i := by
  induction n with
  | zero => exact fun s _ => ⟨rfl, fun a i _ => rfl⟩
  | succ m ih =>
    intro s h
    have hne : s.nextKittyId ≠ U32MAX := by omega
    have hstep : run s (creates (m + 1)) =
        run { kitties := insertKitty s.kitties 0 s.nextKittyId ⟨dnaM⟩,
              nextKittyId := s.nextKittyId + 1 } (creates m) := by
      have hrep : creates (m + 1) = Op.opCreate 0 dnaM :: creates m := by
        simp [creates, List.replicate_succ]
      rw [hrep]
      show run (step s (Op.opCreate 0 dnaM)) (creates m) = _
      congr 1
      simp [step, create, hne]
    obtain ⟨hn, hp⟩ :=
      ih { kitties := insertKitty s.kitties 0 s.nextKittyId ⟨dnaM⟩,
           nextKittyId := s.nextKittyId + 1 } (by simp; omega)
    constructor
    · rw [hstep, hn]
      show s.nextKittyId + 1 + m = s.nextKittyId + (m + 1)
      omega
    · intro a i hi
      rw [hstep, hp a i (by simp; omega)]
      have hni : ¬(a = 0 ∧ i = s.nextKittyId) := fun hc => by omega
      simp only [insertKitty]
      rw [if_neg hni]

/-- A maximal run: two creates (a female then a male kitty, ids 0 and 1), then
creates up to the counter limit `u32::MAX`, then one breed of kitties 0 and 1. -/
def ops9 : List Op :=
  [Op.opCreate 0 dnaF, Op.opCreate 0 dnaM] ++ creates (U32MAX - 2)

/-- C9 as stated is false: this sequence of extrinsics from genesis makes the
final breed return `MaxKittiesReachedNow`. -/
theorem c9_unreachability_counterexample :
    (breed (run initState ops9) 0 0 1).2 =
      Except.error KError.MaxKittiesReachedNow := by
  have hsplit : run initState ops9 = run s2 (creates (U32MAX - 2)) := by
    simp only [ops9, s2, run, List.foldl_append]
  rw [hsplit]
  obtain ⟨hn, hp⟩ := run_creates (U32MAX - 2) s2 (by decide)
  have hnext : (run s2 (creates (U32MAX - 2))).nextKittyId = U32MAX := by
    rw [hn]; decide
  have h00 : (run s2 (creates (U32MAX - 2))).kitties 0 0 = some kittyF := by
    rw [hp 0 0 (by decide)]; rfl
  have h01 : (run s2 (creates (U32MAX - 2))).kitties 0 1 = some kittyM := by
    rw [hp 0 1 (by decide)]; rfl
  have hg : kittyF.gender ≠ kittyM.gender := by decide
  exact breed_at_max _ 0 0 1 kittyF kittyM h00 h01 hg hnext

/-- The store holds some kitty. -/
def StoreNonempty (s : KState) : Prop := ∃ a i k, s.kitties a i = some k

/-- The invariant behind C10: a nonempty store forces a positive counter. -/
def CounterPos (s : KState) : Prop := StoreNonempty s → 1 ≤ s.nextKittyId

theorem counterPos_step (s : KState) (op : Op) (h : CounterPos s) :
    CounterPos (step s op) := by
  cases op with
  | opCreate sender dna =>
    by_cases hm : s.nextKittyId = U32MAX
    · simpa [step, create, hm] using h
    · simp [step, create, hm, CounterPos]
  | opBreed u i1 i2 =>
    cases hc1 : s.kitties u i1 with
    | none => simpa [step, breed, hc1] using h
    | some k1 =>
      have hpos : 1 ≤ s.nextKittyId := h ⟨u, i1, k1, hc1⟩
      cases hc2 : s.kitties u i2 with
      | none => simpa [step, breed, hc1, hc2] using h
      | some k2 =>
        by_cases hg : k1.gender = k2.gender
        · simpa [step, breed, breed_new, hc1, hc2, hg] using h
        · by_cases hm : s.nextKittyId = U32MAX
          · simp [step, breed, breed_new, hc1, hc2, hg, hm, CounterPos]
            intro _
            exact hm ▸ hpos
          · simp [step, breed, breed_new, hc1, hc2, hg, hm, CounterPos]
            intro _
            exact hpos

theorem counterPos_run (ops : List Op) : ∀ s : KState, CounterPos s →
    CounterPos (run s ops) := by
  induction ops with
  | nil => exact fun s h => h
  | cons op l ih => exact fun s h => ih (step s op) (counterPos_step s op h)

/-- C10: in every reachable state in which a breed's parent lookups succeed,
the counter is at least 1, so the `next_kitty_id - 1` that breed returns does
not underflow (`- 1` then `+ 1` round-trips). -/
theorem c10_no_underflow (s : KState) (hs : Reachable s) (u i1 i2 : Nat)
    (k1 k2 : Kitty) (h1 : s.kitties u i1 = some k1)
    (h2 : s.kitties u i2 = some k2) :
    1 ≤ s.nextKittyId ∧ s.nextKittyId - 1 + 1 = s.nextKittyId := by
  obtain ⟨ops, rfl⟩ := hs
  have hinit : CounterPos initState := by
    rintro ⟨a, i, k, hk⟩
    simp [initState, emptyMap] at hk
  have hpos := counterPos_run ops initState hinit ⟨u, i1, k1, h1⟩
  exact ⟨hpos, by omega⟩

/-- Genesis followed by one create: the simplest state with a stored kitty. -/
def s1w : KState := run initState [Op.opCreate 0 dnaF]

theorem c10_no_underflow_witness :
    1 ≤ s1w.nextKittyId ∧ s1w.nextKittyId - 1 + 1 = s1w.nextKittyId :=
  c10_no_underflow s1w ⟨[Op.opCreate 0 dnaF], rfl⟩ 0 0 0 kittyF kittyF rfl rfl

end Kitties
